import Mathlib

/-!
Verification of the groove-link protocol bridge (src/mcp-server).

The development shallowly embeds the frame codec (protocol.rs), the
JSON-RPC message model, the device connection and connection manager
(bitwig.rs), and the operator listener loop (server.rs), and proves the
testable properties of the specification against these embeddings.
Byte streams are lists of natural numbers, machine integers are
naturals/integers with explicit wrap where the source can overflow, and
asynchronous I/O outcomes are passed in explicitly as values.
-/

/-- Model of serde_json::Value: the JSON values exchanged on the wire.
Numbers are modelled as integers, which covers every value the bridge
itself constructs or inspects. -/
inductive Json where
  | null
  | bool (b : Bool)
  | num (n : Int)
  | str (s : String)
  | arr (elems : List Json)
  | obj (fields : List (String × Json))
deriving Repr

/-- Model of protocol.rs RpcRequest: jsonrpc version, method, params, id. -/
structure RpcRequest where
  jsonrpc : String
  method : String
  params : Json
  id : Json
deriving Repr

/-- Model of protocol.rs RpcError: code, message, optional data. -/
structure RpcError where
  code : Int
  message : String
  data : Option Json
deriving Repr

/-- Model of protocol.rs RpcResponse: optional result, optional error, id. -/
structure RpcResponse where
  jsonrpc : String
  result : Option Json
  error : Option RpcError
  id : Json
deriving Repr

/-- Embedding of RpcResponse::success: result present, no error, given id. -/
def RpcResponse.success (id : Json) (result : Json) : RpcResponse :=
  { jsonrpc := "2.0", result := some result, error := none, id := id }

/-- Embedding of the RpcResponse::error constructor (renamed to avoid the
clash with the error field): no result, an RpcError with no data, given id. -/
def RpcResponse.mkError (id : Json) (code : Int) (message : String) : RpcResponse :=
  { jsonrpc := "2.0", result := none,
    error := some { code := code, message := message, data := none }, id := id }

/-- Failure cases of the frame codec in protocol.rs: the header read ends
early, the declared length exceeds the 10 MiB bound, or the body read ends
early. -/
inductive FrameError where
  | headerEof
  | tooLarge (len : Nat)
  | truncated
deriving Repr, DecidableEq

/-- Big-endian encoding of a 32-bit value as four bytes, as produced by
u32::to_be_bytes in write_frame. -/
def be32encode (n : Nat) : List Nat :=
  [n / 2 ^ 24 % 256, n / 2 ^ 16 % 256, n / 2 ^ 8 % 256, n % 256]

/-- Big-endian decoding of four bytes into a 32-bit value, as computed by
u32::from_be_bytes in read_frame. -/
def be32decode (a b c d : Nat) : Nat :=
  ((a * 256 + b) * 256 + c) * 256 + d

/-- Embedding of protocol.rs write_frame: the 4-byte big-endian length of
the payload (the source casts the usize length to u32, hence the wrap
modulo 2 ^ 32) followed by the payload itself. -/
def write_frame (payload : List Nat) : List Nat :=
  be32encode (payload.length % 2 ^ 32) ++ payload

/-- Embedding of protocol.rs read_frame on an incoming byte stream: read
four header bytes (fail if the stream ends first), decode the big-endian
length, reject lengths above 10 MiB before touching the body, then read
exactly that many payload bytes (fail if the stream ends first) and return
the payload together with the unconsumed remainder of the stream. -/
def read_frame (stream : List Nat) : Except FrameError (List Nat × List Nat) :=
  match stream with
  | a :: b :: c :: d :: rest =>
    let len := be32decode a b c d
    if len > 10 * 1024 * 1024 then
      .error (.tooLarge len)
    else if rest.length < len then
      .error .truncated
    else
      .ok (rest.take len, rest.drop len)
  | _ => .error .headerEof

/-- Embedding of the serde Deserialize instance derived for RpcRequest,
at the level of JSON values (the byte-to-JSON parse performed by
serde_json::from_slice is orthogonal and not modelled): the input must be
an object, jsonrpc and method must be strings, id must be present, and
params carries the serde default attribute, so a missing params field is
filled with the Default value of serde_json::Value, which is null. -/
def RpcRequest.deserialize (j : Json) : Except String RpcRequest :=
  match j with
  | .obj fields =>
    match List.lookup "jsonrpc" fields with
    | some (.str ver) =>
      match List.lookup "method" fields with
      | some (.str m) =>
        match List.lookup "id" fields with
        | some idv =>
          .ok { jsonrpc := ver, method := m,
                params := (List.lookup "params" fields).getD .null, id := idv }
        | none => .error "missing field id"
      | _ => .error "missing or invalid field method"
    | _ => .error "missing or invalid field jsonrpc"
  | _ => .error "expected an object"

/-- Embedding of the response-handling tail of BitwigConnection::call in
bitwig.rs: a response with an error field fails with a message embedding
the device error code and message; otherwise the result is returned if
present, and a response with neither field fails with a fixed message. -/
def processResponse (resp : RpcResponse) : Except String Json :=
  match resp.error with
  | some e => .error ("RPC error " ++ toString e.code ++ ": " ++ e.message)
  | none =>
    match resp.result with
    | some v => .ok v
    | none => .error "No result in response"

/-- Mutable state of a BitwigConnection: the request_id counter, created
at 0 by BitwigConnection::new. The transport halves and their locks carry
no call-visible state beyond the reply they deliver, which is passed in
explicitly. -/
structure ConnSt where
  request_id : Nat
deriving Repr, DecidableEq

/-- Fresh connection state as built by BitwigConnection::new. -/
def ConnSt.new : ConnSt := { request_id := 0 }

/-- Embedding of BitwigConnection::call: allocate the next id (increment
then read, so the first call gets 1), build the device-bound RpcRequest,
write it, read one reply frame, and interpret the decoded response. The
counter is a u64, so the increment wraps modulo 2 ^ 64, the release-build
semantics of the += 1 on it (debug builds would abort on the overflow
check instead). The combined outcome of the write, the read and the
decode is passed in as deviceReply; a failure there propagates as the
call failure. Returns the call outcome, the successor connection state,
and the request that was sent to the device. Note that the id of the
device reply is never consulted. -/
def BitwigConnection.call (st : ConnSt) (method : String) (params : Json)
    (deviceReply : Except String RpcResponse) :
    Except String Json × ConnSt × RpcRequest :=
  let id : Nat := (st.request_id + 1) % 2 ^ 64
  let req : RpcRequest :=
    { jsonrpc := "2.0", method := method, params := params, id := .num id }
  match deviceReply with
  | .error e => (.error e, { request_id := id }, req)
  | .ok resp => (processResponse resp, { request_id := id }, req)

/-- Run a sequence of calls on one connection, threading the request_id
counter; each list entry is a method, params and the device-side outcome
of that call. Returns the device-bound requests in order of issue. -/
def runCalls (st : ConnSt) :
    List (String × Json × Except String RpcResponse) → List RpcRequest
  | [] => []
  | (m, p, dr) :: rest =>
    let out := BitwigConnection.call st m p dr
    out.2.2 :: runCalls out.2.1 rest

/-- Embedding of BitwigManager::call: snapshot the optional connection
slot; fail with the fixed not-connected message when the slot is empty,
otherwise delegate to BitwigConnection::call. Returns the outcome, the
successor slot, and the list of requests that reached the device. -/
def BitwigManager.call (slot : Option ConnSt) (method : String) (params : Json)
    (deviceReply : Except String RpcResponse) :
    Except String Json × Option ConnSt × List RpcRequest :=
  match slot with
  | none => (.error "Bitwig not connected", none, [])
  | some st =>
    let out := BitwigConnection.call st method params deviceReply
    (out.1, some out.2.1, [out.2.2])

/-- The space of device operations an operator listener could invoke. The
specification describes a progress-bearing variant next to the plain call;
the progressCall constructor exists so that statements about which
operation the listener dispatches are expressible. -/
inductive DeviceOp where
  | plainCall (req : RpcRequest)
  | progressCall (req : RpcRequest)
deriving Repr

/-- Observable outcome of one iteration of the operator listener loop. -/
structure StepResult where
  ops : List DeviceOp
  sent : Option RpcResponse
  continues : Bool
deriving Repr

/-- Embedding of one iteration of the loop in handle_cli_connection in
server.rs: decode one request (a failure breaks the loop with nothing
written); dispatch it through BitwigManager::call, unconditionally the
plain call whatever the method; wrap the outcome as a success response or
as an error response with code -32603 under the original request id; and
write it back, a write failure breaking the loop. readResult is the
outcome of read_request, deviceReply the device-side outcome, writeOk
whether write_response succeeds. -/
def cliStep (slot : Option ConnSt) (readResult : Except String RpcRequest)
    (deviceReply : Except String RpcResponse) (writeOk : Bool) :
    StepResult × Option ConnSt :=
  match readResult with
  | .error _ => ({ ops := [], sent := none, continues := false }, slot)
  | .ok req =>
    let out := BitwigManager.call slot req.method req.params deviceReply
    let resp :=
      match out.1 with
      | .ok r => RpcResponse.success req.id r
      | .error e => RpcResponse.mkError req.id (-32603) e
    ({ ops := out.2.2.map .plainCall, sent := some resp, continues := writeOk },
     out.2.1)

/-- The operations of the program that touch the connection-manager slot:
an accepted device connection in bitwig.rs listen (which calls
set_connection with a fresh connection) and a dispatched operator call.
clear_connection exists in bitwig.rs but is invoked by no caller in the
program, so no reachable event empties the slot. -/
inductive MgrEvent where
  | deviceConnect
  | operatorCall (method : String) (params : Json)
      (deviceReply : Except String RpcResponse)

/-- Effect of one reachable event on the connection slot. -/
def mgrStep (slot : Option ConnSt) : MgrEvent → Option ConnSt
  | .deviceConnect => some ConnSt.new
  | .operatorCall m p dr => (BitwigManager.call slot m p dr).2.1

/-- Slot contents after a sequence of reachable events from process start
(empty slot). -/
def mgrRun (evs : List MgrEvent) : Option ConnSt :=
  evs.foldl mgrStep none

theorem be32_roundtrip (n : Nat) (h : n < 2 ^ 32) :
    be32decode (n / 2 ^ 24 % 256) (n / 2 ^ 16 % 256) (n / 2 ^ 8 % 256) (n % 256) = n := by
  simp only [be32decode]
  omega

/-- C2: for every byte payload of length at most 10 MiB, writing it with
write_frame (4-byte big-endian length prefix, then the payload) and then
reading the produced bytes with read_frame returns exactly the original
payload, consuming the whole stream. -/
theorem C2_frame_roundtrip (p : List Nat) (h : p.length ≤ 10 * 1024 * 1024) :
    read_frame (write_frame p) = .ok (p, []) := by
  have hlt : p.length < 2 ^ 32 := by omega
  have hmod : p.length % 2 ^ 32 = p.length := Nat.mod_eq_of_lt hlt
  have hdec := be32_roundtrip p.length hlt
  simp only [write_frame, hmod, be32encode, List.cons_append, List.nil_append,
    read_frame, hdec]
  rw [if_neg (by omega), if_neg (by omega)]
  simp

theorem C2_frame_roundtrip_witness :
    ([1, 2, 3] : List Nat).length ≤ 10 * 1024 * 1024 ∧
    read_frame (write_frame [1, 2, 3]) = .ok ([1, 2, 3], []) :=
  ⟨by decide, C2_frame_roundtrip [1, 2, 3] (by decide)⟩

/-- C3: read_frame fails on every stream whose 4-byte big-endian declared
length exceeds 10 MiB, with an outcome independent of the bytes that
follow the header (so before any payload byte is read); for declared
lengths of at most 10 MiB and a long enough stream the body is read,
exactly that many bytes; and a tooLarge failure only ever occurs for a
declared length above 10 MiB. -/
theorem C3_size_enforcement :
    (∀ a b c d rest rest', 10 * 1024 * 1024 < be32decode a b c d →
      read_frame (a :: b :: c :: d :: rest) = .error (.tooLarge (be32decode a b c d)) ∧
      read_frame (a :: b :: c :: d :: rest) = read_frame (a :: b :: c :: d :: rest')) ∧
    (∀ a b c d rest, be32decode a b c d ≤ 10 * 1024 * 1024 →
      be32decode a b c d ≤ rest.length →
      read_frame (a :: b :: c :: d :: rest) =
        .ok (rest.take (be32decode a b c d), rest.drop (be32decode a b c d)) ∧
      (rest.take (be32decode a b c d)).length = be32decode a b c d) ∧
    (∀ s len, read_frame s = .error (.tooLarge len) → 10 * 1024 * 1024 < len) := by
  refine ⟨?_, ?_, ?_⟩
  · intro a b c d rest rest' hbig
    constructor <;> simp only [read_frame] <;> rw [if_pos hbig]
    rw [if_pos hbig]
  · intro a b c d rest hle hlen
    constructor
    · simp only [read_frame]
      rw [if_neg (by omega), if_neg (by omega)]
    · simp [List.length_take]
      omega
  · intro s len h
    match s with
    | [] => simp [read_frame] at h
    | [a] => simp [read_frame] at h
    | [a, b] => simp [read_frame] at h
    | [a, b, c] => simp [read_frame] at h
    | a :: b :: c :: d :: rest =>
      simp only [read_frame] at h
      by_cases hbig : 10 * 1024 * 1024 < be32decode a b c d
      · rw [if_pos hbig] at h
        cases h
        exact hbig
      · rw [if_neg hbig] at h
        by_cases htr : rest.length < be32decode a b c d
        · rw [if_pos htr] at h
          cases h
        · rw [if_neg htr] at h
          cases h

theorem C3_size_enforcement_witness :
    10 * 1024 * 1024 < be32decode 1 0 0 0 ∧
    read_frame [1, 0, 0, 0, 42] = .error (.tooLarge (be32decode 1 0 0 0)) ∧
    read_frame [1, 0, 0, 0, 42] = read_frame [1, 0, 0, 0] :=
  ⟨by decide,
   (C3_size_enforcement.1 1 0 0 0 [42] [] (by decide)).1,
   (C3_size_enforcement.1 1 0 0 0 [42] [] (by decide)).2⟩

theorem runCalls_length (cs : List (String × Json × Except String RpcResponse))
    (st : ConnSt) : (runCalls st cs).length = cs.length := by
  induction cs generalizing st with
  | nil => rfl
  | cons hd tl ih =>
    obtain ⟨m, p, dr⟩ := hd
    cases dr <;> simp [runCalls, BitwigConnection.call, ih]

theorem runCalls_id_getElem (cs : List (String × Json × Except String RpcResponse))
    (c j : Nat) (h : j < cs.length) :
    ((runCalls ⟨c⟩ cs).map RpcRequest.id)[j]? =
      some (Json.num (((c + j + 1) % 2 ^ 64 : Nat) : Int)) := by
  induction cs generalizing c j with
  | nil => simp at h
  | cons hd tl ih =>
    obtain ⟨m, p, dr⟩ := hd
    cases j with
    | zero =>
      cases dr <;> simp [runCalls, BitwigConnection.call]
    | succ j' =>
      have hj : j' < tl.length := by simpa using h
      have harg : ((c + 1) % 2 ^ 64 + j' + 1) % 2 ^ 64 =
          (c + (j' + 1) + 1) % 2 ^ 64 := by
        rw [show (c + 1) % 2 ^ 64 + j' + 1 = (c + 1) % 2 ^ 64 + (j' + 1) from by omega,
          Nat.mod_add_mod]
        congr 1
        omega
      cases dr <;>
        · simp only [runCalls, BitwigConnection.call, List.map_cons,
            List.getElem?_cons_succ]
          rw [ih ((c + 1) % 2 ^ 64) j' hj, harg]

/-- C4 counterexample: a sequence of 2 ^ 64 consecutive calls on one fresh
connection. The u64 counter wraps, so the last call allocates id 0, not
id 2 ^ 64: the allocated id sequence is not 1, ..., n. -/
def longCalls : List (String × Json × Except String RpcResponse) :=
  List.replicate (2 ^ 64) ("info.get", Json.null, Except.error "io")

theorem C4_counterexample :
    (runCalls ConnSt.new longCalls).map RpcRequest.id ≠
      (List.range' 1 longCalls.length).map (fun n : Nat => Json.num (n : Int)) := by
  intro heq
  have hlen : longCalls.length = 2 ^ 64 := List.length_replicate _ _
  have hidx : 2 ^ 64 - 1 < longCalls.length := by rw [hlen]; omega
  have e1 : ((runCalls ConnSt.new longCalls).map RpcRequest.id)[2 ^ 64 - 1]? =
      some (Json.num (((0 + (2 ^ 64 - 1) + 1) % 2 ^ 64 : Nat) : Int)) :=
    runCalls_id_getElem longCalls 0 (2 ^ 64 - 1) hidx
  have e2 : ((List.range' 1 longCalls.length).map
        (fun n : Nat => Json.num (n : Int)))[2 ^ 64 - 1]? =
      some (Json.num ((1 + 1 * (2 ^ 64 - 1) : Nat) : Int)) := by
    rw [List.getElem?_map, List.getElem?_range' 1 1 hidx]
    rfl
  rw [heq, e2] at e1
  have hmod : (0 + (2 ^ 64 - 1) + 1) % 2 ^ 64 = 0 := by
    rw [show 0 + (2 ^ 64 - 1) + 1 = 2 ^ 64 from by omega]
    exact Nat.mod_self _
  rw [hmod] at e1
  simp only [Option.some.injEq, Json.num.injEq, Nat.cast_inj] at e1
  omega

/-- C4 amended: on a single device connection the ids allocated by
consecutive calls equal 1, 2, ..., n in order — strictly increasing,
starting at 1, the n-th call allocating id n, whatever the outcome of
each call — for every sequence of fewer than 2 ^ 64 calls; beyond that
the u64 counter wraps to 0. -/
theorem C4_id_monotonic (calls : List (String × Json × Except String RpcResponse))
    (hlt : calls.length < 2 ^ 64) :
    (runCalls ConnSt.new calls).map RpcRequest.id =
      (List.range' 1 calls.length).map (fun n : Nat => Json.num (n : Int)) := by
  suffices aux : ∀ (cs : List (String × Json × Except String RpcResponse)) (c : Nat),
      c + cs.length < 2 ^ 64 →
      (runCalls ⟨c⟩ cs).map RpcRequest.id =
        (List.range' (c + 1) cs.length).map (fun n : Nat => Json.num (n : Int)) by
    exact aux calls 0 (by omega)
  intro cs
  induction cs with
  | nil => intro c hc; simp [runCalls]
  | cons hd tl ih =>
    intro c hc
    obtain ⟨m, p, dr⟩ := hd
    have hc' : c + tl.length + 1 < 2 ^ 64 := by
      simpa [Nat.add_assoc] using hc
    have hmod : (c + 1) % 2 ^ 64 = c + 1 := Nat.mod_eq_of_lt (by omega)
    have hstep : runCalls ⟨c⟩ ((m, p, dr) :: tl) =
        { jsonrpc := "2.0", method := m, params := p,
          id := Json.num (((c + 1) % 2 ^ 64 : Nat) : Int) } ::
        runCalls ⟨(c + 1) % 2 ^ 64⟩ tl := by
      cases dr <;> rfl
    rw [hstep, hmod, List.map_cons, ih (c + 1) (by omega), List.length_cons,
      List.range'_succ, List.map_cons]

theorem C4_id_monotonic_witness :
    ([("info.get", Json.obj [], Except.error "io"),
      ("list.tracks", Json.obj [],
        Except.ok (RpcResponse.success (Json.num 1) (Json.num 5)))] :
        List (String × Json × Except String RpcResponse)).length < 2 ^ 64 ∧
    (runCalls ConnSt.new
      [("info.get", Json.obj [], Except.error "io"),
       ("list.tracks", Json.obj [],
         Except.ok (RpcResponse.success (Json.num 1) (Json.num 5)))]).map RpcRequest.id =
      [Json.num 1, Json.num 2] :=
  ⟨by decide,
   C4_id_monotonic
     [("info.get", Json.obj [], Except.error "io"),
      ("list.tracks", Json.obj [],
        Except.ok (RpcResponse.success (Json.num 1) (Json.num 5)))] (by decide)⟩

/-- C1 counterexample: there is no method name whose requests the listener
dispatches to a progress-bearing operation — whatever candidate name is
chosen, a request with that method is dispatched as a plain call. -/
theorem C1_counterexample :
    ¬ ∃ pm : String, ∀ (st : ConnSt) (req : RpcRequest)
        (dr : Except String RpcResponse) (w : Bool),
      req.method = pm →
        ∃ r, (cliStep (some st) (.ok req) dr w).1.ops = [DeviceOp.progressCall r] := by
  rintro ⟨pm, h⟩
  obtain ⟨r, hr⟩ :=
    h ConnSt.new { jsonrpc := "2.0", method := pm, params := .null, id := .num 1 }
      (.error "transport") true rfl
  simp [cliStep, BitwigManager.call, BitwigConnection.call] at hr

/-- C1 amended: the operator listener dispatches every decoded request as
a plain call, regardless of its method: no progress operation is ever
invoked, and with a connected device exactly one plain call carrying the
request method and params (under a freshly allocated device id) reaches
the manager. -/
theorem C1_dispatch (slot : Option ConnSt) (rr : Except String RpcRequest)
    (dr : Except String RpcResponse) (w : Bool) :
    (∀ r, DeviceOp.progressCall r ∉ (cliStep slot rr dr w).1.ops) ∧
    (∀ st req, slot = some st → rr = .ok req →
      (cliStep slot rr dr w).1.ops =
        [DeviceOp.plainCall { jsonrpc := "2.0", method := req.method,
                              params := req.params,
                              id := .num (((st.request_id + 1) % 2 ^ 64 : Nat) : Int) }]) := by
  constructor
  · intro r
    cases rr with
    | error e => simp [cliStep]
    | ok req =>
      cases slot with
      | none => simp [cliStep, BitwigManager.call]
      | some st => simp [cliStep, BitwigManager.call, BitwigConnection.call]
  · rintro st req rfl rfl
    cases dr <;> simp [cliStep, BitwigManager.call, BitwigConnection.call]

/-- A concrete decoded operator request used to instantiate theorems. -/
def reqRender : RpcRequest :=
  { jsonrpc := "2.0", method := "render.batch", params := Json.obj [],
    id := Json.num 4 }

theorem C1_dispatch_witness :
    (some ConnSt.new : Option ConnSt) = some ConnSt.new ∧
    (Except.ok reqRender : Except String RpcRequest) = .ok reqRender ∧
    (cliStep (some ConnSt.new) (.ok reqRender) (.error "transport") true).1.ops =
      [DeviceOp.plainCall { jsonrpc := "2.0", method := reqRender.method,
                            params := reqRender.params, id := Json.num 1 }] :=
  ⟨rfl, rfl,
   (C1_dispatch (some ConnSt.new) (.ok reqRender)
      (.error "transport") true).2 ConnSt.new reqRender rfl rfl⟩

/-- C5: with an empty connection slot, the listener step for any request
with id 1 (in particular method info.get with empty params) performs no
device operation and writes the JSON-RPC error response with code -32603,
message Bitwig not connected, under the original id 1, whatever the
(unreached) device-side outcome would have been. -/
theorem C5_not_connected (m : String) (p : Json) (dr : Except String RpcResponse) :
    cliStep none
      (.ok { jsonrpc := "2.0", method := m, params := p, id := Json.num 1 }) dr true =
    ({ ops := [], sent := some (RpcResponse.mkError (Json.num 1) (-32603)
        "Bitwig not connected"), continues := true }, none) := rfl

/-- C6: for every successful relayed call — device reply decoded, error
field absent, result field present — the response written to the operator
is the success response carrying the operator request id and the device
result value; the id field of the device reply does not occur in the
outcome, so the device-assigned id is discarded. -/
theorem C6_id_relay (st : ConnSt) (req : RpcRequest) (resp : RpcResponse) (v : Json)
    (w : Bool) (herr : resp.error = none) (hres : resp.result = some v) :
    (cliStep (some st) (.ok req) (.ok resp) w).1.sent =
      some (RpcResponse.success req.id v) := by
  simp [cliStep, BitwigManager.call, BitwigConnection.call, processResponse,
    herr, hres]

theorem C6_id_relay_witness :
    ({ jsonrpc := "2.0", result := some (Json.arr [Json.str "Track 1", Json.str "Track 2"]),
       error := none, id := Json.num 1 } : RpcResponse).error = none ∧
    ({ jsonrpc := "2.0", result := some (Json.arr [Json.str "Track 1", Json.str "Track 2"]),
       error := none, id := Json.num 1 } : RpcResponse).result =
      some (Json.arr [Json.str "Track 1", Json.str "Track 2"]) ∧
    (cliStep (some ConnSt.new)
        (.ok { jsonrpc := "2.0", method := "list.tracks", params := Json.obj [],
               id := Json.num 7 })
        (.ok { jsonrpc := "2.0",
               result := some (Json.arr [Json.str "Track 1", Json.str "Track 2"]),
               error := none, id := Json.num 1 }) true).1.sent =
      some (RpcResponse.success (Json.num 7)
        (Json.arr [Json.str "Track 1", Json.str "Track 2"])) :=
  ⟨rfl, rfl,
   C6_id_relay ConnSt.new
     { jsonrpc := "2.0", method := "list.tracks", params := Json.obj [], id := Json.num 7 }
     { jsonrpc := "2.0", result := some (Json.arr [Json.str "Track 1", Json.str "Track 2"]),
       error := none, id := Json.num 1 }
     (Json.arr [Json.str "Track 1", Json.str "Track 2"]) true rfl rfl⟩

/-- The JSON object of a request that omits the params field. -/
def reqObjNoParams : Json :=
  Json.obj [("jsonrpc", Json.str "2.0"), ("method", Json.str "info.get"),
            ("id", Json.num 1)]

/-- C7 counterexample: decoding a request object without a params field
yields params equal to JSON null, which is not the empty object — the
serde default for a serde_json::Value field is Value::Null. -/
theorem C7_counterexample :
    RpcRequest.deserialize reqObjNoParams =
      .ok { jsonrpc := "2.0", method := "info.get", params := Json.null,
            id := Json.num 1 } ∧
    Json.null ≠ Json.obj [] :=
  ⟨rfl, nofun⟩

/-- C7 amended: decoding an RpcRequest whose JSON object omits the params
field yields params equal to JSON null (the Default value of
serde_json::Value), not the empty object. -/
theorem C7_params_default (fields : List (String × Json)) (req : RpcRequest)
    (hnp : List.lookup "params" fields = none)
    (hok : RpcRequest.deserialize (Json.obj fields) = .ok req) :
    req.params = Json.null := by
  simp only [RpcRequest.deserialize, hnp, Option.getD_none] at hok
  split at hok
  · split at hok
    · split at hok
      · cases hok
        rfl
      · cases hok
    · cases hok
  · cases hok

theorem C7_params_default_witness :
    List.lookup "params"
      [("jsonrpc", Json.str "2.0"), ("method", Json.str "info.get"),
       ("id", Json.num 1)] = none ∧
    RpcRequest.deserialize reqObjNoParams =
      .ok { jsonrpc := "2.0", method := "info.get", params := Json.null,
            id := Json.num 1 } ∧
    ({ jsonrpc := "2.0", method := "info.get", params := Json.null,
       id := Json.num 1 } : RpcRequest).params = Json.null :=
  ⟨rfl, rfl,
   C7_params_default
     [("jsonrpc", Json.str "2.0"), ("method", Json.str "info.get"), ("id", Json.num 1)]
     { jsonrpc := "2.0", method := "info.get", params := Json.null, id := Json.num 1 }
     rfl rfl⟩

/-- C8: error handling of the operator listener loop. A failure to decode
the operator request breaks the loop with nothing written and the slot
untouched. For a decoded request the loop continues exactly when the
response write succeeds, and every device-call failure — not connected,
transport, decode or device-reported — produces the error response with
code -32603 under the original request id. -/
theorem C8_error_propagation (slot : Option ConnSt) (dr : Except String RpcResponse)
    (w : Bool) :
    (∀ e, cliStep slot (.error e) dr w =
      ({ ops := [], sent := none, continues := false }, slot)) ∧
    (∀ req, (cliStep slot (.ok req) dr w).1.continues = w) ∧
    (∀ req e, (BitwigManager.call slot req.method req.params dr).1 = .error e →
      (cliStep slot (.ok req) dr w).1.sent =
        some (RpcResponse.mkError req.id (-32603) e)) := by
  refine ⟨fun e => rfl, fun req => rfl, fun req e h => ?_⟩
  simp only [cliStep, h]

theorem C8_error_propagation_witness :
    (BitwigManager.call none reqRender.method reqRender.params
        (.error "transport")).1 = .error "Bitwig not connected" ∧
    (cliStep none (.ok reqRender) (.error "transport") true).1.sent =
      some (RpcResponse.mkError reqRender.id (-32603) "Bitwig not connected") :=
  ⟨rfl,
   (C8_error_propagation none (.error "transport") true).2.2 reqRender
     "Bitwig not connected" rfl⟩

theorem mgrStep_operatorCall_isSome (slot : Option ConnSt) (m : String) (p : Json)
    (dr : Except String RpcResponse) :
    (mgrStep slot (.operatorCall m p dr)).isSome = slot.isSome := by
  cases slot <;> rfl

theorem mgrFold_isSome (evs : List MgrEvent) (slot : Option ConnSt) :
    (List.foldl mgrStep slot evs).isSome ↔
      (slot.isSome ∨ MgrEvent.deviceConnect ∈ evs) := by
  induction evs generalizing slot with
  | nil => simp
  | cons ev tl ih =>
    cases ev with
    | deviceConnect =>
      simp [List.foldl_cons, ih, mgrStep]
    | operatorCall m p dr =>
      simp [List.foldl_cons, ih, mgrStep_operatorCall_isSome]

/-- C9: the connection-manager slot, driven by the reachable operations of
the program (device accepts and operator calls; clear_connection has no
caller), is occupied exactly when at least one device connection has
arrived: is_connected never reverts to false once true, and the
not-connected failure can only occur before the first device connection. -/
theorem C9_slot_persistence :
    (∀ evs : List MgrEvent, (mgrRun evs).isSome ↔ MgrEvent.deviceConnect ∈ evs) ∧
    (∀ evs evs' : List MgrEvent,
      (mgrRun evs).isSome → (mgrRun (evs ++ evs')).isSome) := by
  constructor
  · intro evs
    simp only [mgrRun]
    rw [mgrFold_isSome]
    simp
  · intro evs evs' h
    simp only [mgrRun] at h ⊢
    rw [List.foldl_append, mgrFold_isSome]
    exact Or.inl h

theorem C9_slot_persistence_witness :
    (mgrRun [MgrEvent.deviceConnect]).isSome ∧
    (mgrRun ([MgrEvent.deviceConnect] ++
        [MgrEvent.operatorCall "info.get" (Json.obj []) (.error "transport")])).isSome :=
  ⟨(C9_slot_persistence.1 [MgrEvent.deviceConnect]).mpr (by simp),
   C9_slot_persistence.2 [MgrEvent.deviceConnect]
     [MgrEvent.operatorCall "info.get" (Json.obj []) (.error "transport")]
     ((C9_slot_persistence.1 [MgrEvent.deviceConnect]).mpr (by simp))⟩

/-- C10: interpretation of a decoded device response by
BitwigConnection::call. The call succeeds with value v exactly when the
error field is absent and the result field is some v; an error field
always produces the failure message embedding the device code and message,
even when a result is also present; and a response with neither field
fails with the fixed no-result message. The function is total, so no
malformed response can make it panic. -/
theorem C10_response_interpretation :
    (∀ (r : RpcResponse) (v : Json),
      processResponse r = .ok v ↔ r.error = none ∧ r.result = some v) ∧
    (∀ (r : RpcResponse) (e : RpcError), r.error = some e →
      processResponse r =
        .error ("RPC error " ++ toString e.code ++ ": " ++ e.message)) ∧
    (∀ r : RpcResponse, r.error = none → r.result = none →
      processResponse r = .error "No result in response") := by
  refine ⟨?_, ?_, ?_⟩
  · intro r v
    obtain ⟨j, res, err, i⟩ := r
    cases err <;> cases res <;> simp [processResponse]
  · intro r e h
    simp [processResponse, h]
  · intro r h1 h2
    simp [processResponse, h1, h2]

/-- A device response carrying both a result and an error, used to check
that the error field wins. -/
def bothResp : RpcResponse :=
  { jsonrpc := "2.0", result := some (Json.num 5),
    error := some { code := -7, message := "boom", data := none },
    id := Json.num 3 }

theorem C10_response_interpretation_witness :
    bothResp.error = some { code := -7, message := "boom", data := none } ∧
    processResponse bothResp =
      .error ("RPC error " ++ toString (-7 : Int) ++ ": " ++ "boom") :=
  ⟨rfl,
   C10_response_interpretation.2.1 bothResp
     { code := -7, message := "boom", data := none } rfl⟩
